import Mathlib

/-!
Shallow embedding of `src/ScatterAnimate.py` (class `ScatterAnimation`).

Point coordinates and sizes are modelled as rationals (the Python code uses
numpy float arrays; every arithmetic operation appearing in the source —
addition, subtraction, multiplication, true division, absolute value,
comparison against the literal 0.25 — is exact on the inputs considered, so
`ℚ` is an adequate exact model).  A snapshot (one entry of `position`) is a
list of `(x, y)` pairs; the parallel `sizes` entry is a list of rationals.

Fallible Python operations (indexing a list, subscripting `None`, dividing
by zero) are modelled in the `Except String` monad, mirroring the source's
evaluation order so that which error fires first is faithful.
-/

namespace ScatterAnimate

/-- Python sequence indexing `l[n]` with negative-index support:
`l[-m]` is `l[len l - m]` when `0 < m ≤ len l`; any out-of-range access
yields `none` (Python raises `IndexError`). -/
def pyGet? {α : Type} (l : List α) (n : ℤ) : Option α :=
  let m : ℤ := if n < 0 then n + l.length else n
  if 0 ≤ m then l.get? m.toNat else none

/-- Turn an optional lookup into the `Except` monad with a Python-style
error message. -/
def getE {α : Type} (msg : String) : Option α → Except String α
  | some a => Except.ok a
  | none => Except.error msg

/-- Arguments of `ScatterAnimation.__init__` (src/ScatterAnimate.py lines
37-40) that influence the animation state.  Purely cosmetic pass-through
arguments (`cmap`, `axis`, `title`, `xlabel`, `ylabel`, `repeat`,
`fontsize`, `frame_loc`, `figsize`, `helpers`) only affect the rendering
backend, never the computed positions/sizes/labels, and are omitted. -/
structure ScatterAnimation where
  position : List (List (ℚ × ℚ))
  sizes : Option (List (List ℚ)) := none
  frame_labels : Option (List String) := none
  text_labels : Option (List String) := none
  animated : ℕ := 10
  paused : ℕ := 3
  threshold : ℚ := 0
  colors : Bool := false
  shadows : Bool := false
  lines : Bool := false
  debug : Bool := false
deriving DecidableEq

/-- `self.framedelta = paused + animated` (line 55). -/
def ScatterAnimation.framedelta (sa : ScatterAnimation) : ℕ :=
  sa.paused + sa.animated

/-- `self.numframes = self.framedelta * len(position)` (line 56). -/
def ScatterAnimation.numframes (sa : ScatterAnimation) : ℕ :=
  sa.framedelta * sa.position.length

/-- The frame counters the driver feeds to `update`:
`frames=range(self.framedelta, self.numframes)` in the `FuncAnimation`
construction (line 84). -/
def ScatterAnimation.animFrames (sa : ScatterAnimation) : List ℕ :=
  List.range' sa.framedelta (sa.numframes - sa.framedelta)

/-- `self.sizes[idx]`: subscripting `None` is a `TypeError`, an
out-of-range index an `IndexError` (lines 94, 117, 137, 157). -/
def sizesGet (sa : ScatterAnimation) (idx : ℕ) : Except String (List ℚ) :=
  match sa.sizes with
  | none => Except.error "TypeError: NoneType object is not subscriptable"
  | some ss => getE "IndexError" (ss.get? idx)

/-- The mutable rendering state owned by the instance.  `s` is the size
array the rendering backend actually reads: it is set once, from
`sizes[0]`, by the `s=` keyword of the `plt.scatter` call (line 117), and
the backend re-reads only this array when drawing.  `mangledSizes` models
the attribute written by `self.scat.__sizes = sizes` (line 169): inside
`class ScatterAnimation` this name mangles to
`self.scat._ScatterAnimation__sizes`, a fresh attribute the rendering
backend never consults. -/
structure RenderState where
  offsets : List (ℚ × ℚ)
  s : List ℚ
  mangledSizes : Option (List ℚ)
  frame_text : Option String
  ax_texts : List (Option ((ℚ × ℚ) × String))
  idx_counter : Option String
  c : Option (List ℕ)
  shadow : Option (List ((ℚ × ℚ) × ℚ))
  drawnLines : List ((ℚ × ℚ) × (ℚ × ℚ))
deriving DecidableEq

/-- Lines 88-89 of `initScat`: when `frame_labels` is supplied the caption
text object is created with the string `self.text_labels[0]` (the source
reads `text_labels`, not `frame_labels`, here). -/
def initFrameText (sa : ScatterAnimation) : Except String (Option String) :=
  match sa.frame_labels with
  | none => Except.ok none
  | some _ =>
    match sa.text_labels with
    | none => Except.error "TypeError: NoneType object is not subscriptable"
    | some tl => (getE "IndexError" (tl.get? 0)).map some

/-- Lines 91-99 of `initScat`: one text object per `text_labels` entry,
placed at the point's frame-0 position when `sizes[0][i] > threshold`,
`None` otherwise. -/
def initAxTexts (sa : ScatterAnimation) :
    Except String (List (Option ((ℚ × ℚ) × String))) :=
  match sa.text_labels with
  | none => Except.ok []
  | some tl =>
    (List.range tl.length).mapM (fun j =>
      (sizesGet sa 0).bind (fun sz0 =>
      (getE "IndexError" (sz0.get? j)).bind (fun s =>
        if s > sa.threshold then
          (getE "IndexError" (pyGet? sa.position 0)).bind (fun pos0 =>
          (getE "IndexError" (pos0.get? j)).bind (fun p =>
          (getE "IndexError" (tl.get? j)).map (fun lab => some (p, lab))))
        else Except.ok none)))

/-- Lines 110-112 of `initScat`: `c = np.arange(len(self.text_labels))`
when color mode is on; `len(None)` is a `TypeError`. -/
def initColor (sa : ScatterAnimation) : Except String (Option (List ℕ)) :=
  if sa.colors then
    match sa.text_labels with
    | none => Except.error "TypeError: object of type NoneType has no len"
    | some tl => Except.ok (some (List.range tl.length))
  else Except.ok none

/-- `initScat` (lines 87-124), in source order: caption text object
(88-89), per-point text objects (91-99), debug counter (107-108), color
index array (110-112), the main scatter from `position[0]` with
`s=sizes[0]` (114-117), and the optional shadow scatter of every frame-0
point at its frame-0 size (120-121). -/
def initScat (sa : ScatterAnimation) : Except String RenderState :=
  (initFrameText sa).bind (fun ft =>
  (initAxTexts sa).bind (fun axts =>
    let idxc : Option String := if sa.debug then some "0" else none
    (initColor sa).bind (fun c =>
    (getE "IndexError" (pyGet? sa.position 0)).bind (fun pos0 =>
    (sizesGet sa 0).bind (fun s0 =>
      Except.ok
        { offsets := pos0
          s := s0
          mangledSizes := none
          frame_text := ft
          ax_texts := axts
          idx_counter := idxc
          c := c
          shadow := if sa.shadows then some (pos0.zip s0) else none
          drawnLines := [] })))))

/-- Line 151: `offset_delta = position[next_idx] - position[prev_idx]`,
elementwise per point. -/
def offsetDelta (nextArr prevArr : List (ℚ × ℚ)) : List (ℚ × ℚ) :=
  List.zipWith (fun q p => (q.1 - p.1, q.2 - p.2)) nextArr prevArr

/-- Line 152: `offset = position[prev_idx] + offset_delta * t / animated`
with `t = i % framedelta - paused`. -/
def offsetCandidate (prevArr delta : List (ℚ × ℚ)) (t k : ℕ) :
    List (ℚ × ℚ) :=
  List.zipWith (fun p d => (p.1 + d.1 * t / k, p.2 + d.2 * t / k))
    prevArr delta

/-- Line 154: the boolean mask
`(|offset_delta|.T[0] > 0.25) | (|offset_delta|.T[1] > 0.25)`. -/
def snapMask (delta : List (ℚ × ℚ)) : List Bool :=
  delta.map (fun d => decide (|d.1| > 1/4) || decide (|d.2| > 1/4))

/-- Line 155: `offset[offset_idx] = position[next_idx][offset_idx]` —
numpy boolean-mask assignment into the freshly computed `offset` array;
for the equal-length arrays of a well-formed animation this replaces
exactly the masked entries (numpy raises on a length mismatch). -/
def snapAssign (offset : List (ℚ × ℚ)) (mask : List Bool)
    (nextArr : List (ℚ × ℚ)) : List (ℚ × ℚ) :=
  List.zipWith (fun om n => if om.2 then n else om.1)
    (offset.zip mask) nextArr

/-- Numpy boolean-mask selection `arr[mask]` (lines 138-139). -/
def maskFilter {α : Type} (mask : List Bool) (l : List α) : List α :=
  (mask.zip l).filterMap (fun p => if p.1 then some p.2 else none)

/-- Lines 137-141: the per-point line segments of the terminal
line-drawing block — `idx = sizes[0] > threshold`,
`a = position[0][idx]`, `b = position[-1][idx]`, then one plotted segment
from `(a[j], a_y[j])` to `(b[j], b_y[j])` per selected point. -/
def lineSegs (sa : ScatterAnimation) :
    Except String (List ((ℚ × ℚ) × (ℚ × ℚ))) :=
  (sizesGet sa 0).bind (fun s0 =>
    let mask := s0.map (fun s => decide (s > sa.threshold))
    (getE "IndexError" (pyGet? sa.position 0)).bind (fun a =>
    (getE "IndexError" (pyGet? sa.position (-1))).bind (fun b =>
      Except.ok ((maskFilter mask a).zip (maskFilter mask b)))))

/-- Lines 135-142 of `update`: when `lines` is enabled and `i` is the
last frame overall (`i == numframes - 1`), draw the first-to-last
segments of the above-threshold points; otherwise draw nothing. -/
def drawLines (sa : ScatterAnimation) (i : ℕ) (st : RenderState) :
    Except String RenderState :=
  if sa.lines then
    if (i : ℤ) = (sa.numframes : ℤ) - 1 then
      (lineSegs sa).map (fun nl =>
        { st with drawnLines := st.drawnLines ++ nl })
    else Except.ok st
  else Except.ok st

/-- Lines 144-145 of `update`: refresh the debug counter text. -/
def debugStep (sa : ScatterAnimation) (i : ℕ) (st : RenderState) :
    RenderState :=
  if sa.debug then { st with idx_counter := some (toString i) } else st

/-- Lines 160-161 of `update`: set the caption text to
`frame_labels[next_idx]` when frame labels were supplied. -/
def setFrameText (sa : ScatterAnimation) (nextIdx : ℕ) (st : RenderState) :
    Except String RenderState :=
  match sa.frame_labels with
  | none => Except.ok st
  | some fl =>
    (getE "IndexError" (fl.get? nextIdx)).map
      (fun lab => { st with frame_text := some lab })

/-- Lines 163-166 of `update`: move every existing per-point text object
to its point's newly computed offset (`set_position(offset[i])`). -/
def moveTexts (sa : ScatterAnimation) (offset : List (ℚ × ℚ))
    (st : RenderState) : Except String RenderState :=
  match sa.text_labels with
  | none => Except.ok st
  | some tl =>
    ((List.range tl.length).mapM (fun j =>
      match st.ax_texts.get? j with
      | none => Except.error "IndexError"
      | some none => Except.ok none
      | some (some pl) =>
        (getE "IndexError" (offset.get? j)).map
          (fun p => some (p, pl.2)))).map
      (fun ts => { st with ax_texts := ts })

/-- Lines 160-166 of `update`: caption update followed by text moves. -/
def updateLabels (sa : ScatterAnimation) (nextIdx : ℕ)
    (offset : List (ℚ × ℚ)) (st : RenderState) :
    Except String RenderState :=
  (setFrameText sa nextIdx st).bind (moveTexts sa offset)

/-- Lines 151-155 of `update`: the candidate linear blend followed by
the in-place snap-to-final override of the masked points. -/
def interpOffset (sa : ScatterAnimation) (i : ℕ)
    (nextArr prevArr : List (ℚ × ℚ)) : List (ℚ × ℚ) :=
  snapAssign
    (offsetCandidate prevArr (offsetDelta nextArr prevArr)
      (i % sa.framedelta - sa.paused) sa.animated)
    (snapMask (offsetDelta nextArr prevArr)) nextArr

/-- The tail of `update` after the line-drawing block: debug counter
(144-145), pause-frame early return (147-149), interpolation with the
snap-to-final override (151-155), `sizes = self.sizes[next_idx]` (157),
`set_offsets` (158), label updates (160-166), and the guarded
`self.scat.__sizes = sizes` attribute write (168-169). -/
def updateCore (sa : ScatterAnimation) (i : ℕ) (st0 : RenderState) :
    Except String RenderState :=
  if i % sa.framedelta < sa.paused then Except.ok (debugStep sa i st0)
  else
    (getE "IndexError"
        (pyGet? sa.position ((i / sa.framedelta : ℕ) : ℤ))).bind (fun nextArr =>
    (getE "IndexError"
        (pyGet? sa.position (((i / sa.framedelta : ℕ) : ℤ) - 1))).bind (fun prevArr =>
    (sizesGet sa (i / sa.framedelta)).bind (fun sizesNext =>
    (updateLabels sa (i / sa.framedelta) (interpOffset sa i nextArr prevArr)
        { debugStep sa i st0 with
            offsets := interpOffset sa i nextArr prevArr }).bind (fun st2 =>
      Except.ok
        (if sa.sizes.isSome then { st2 with mangledSizes := some sizesNext }
         else st2)))))

/-- `update(self, i)` (lines 126-171).  `next_idx = i // framedelta`
would be a `ZeroDivisionError` for `framedelta = 0`; otherwise the
line-drawing block runs first, then the core. -/
def update (sa : ScatterAnimation) (i : ℕ) (st : RenderState) :
    Except String RenderState :=
  if sa.framedelta = 0 then Except.error "ZeroDivisionError"
  else (drawLines sa i st).bind (updateCore sa i)

/-- Drive `update` over a list of frame counters, threading the render
state, as `FuncAnimation` does over `animFrames` in a single pass. -/
def runFrames (sa : ScatterAnimation) (frames : List ℕ)
    (st : RenderState) : Except String RenderState :=
  frames.foldlM (fun s i => update sa i s) st

/-! Structural lemmas about the embedding, shared by the claim proofs. -/

theorem pyGet?_natCast {α : Type} (l : List α) (n : ℕ) :
    pyGet? l (n : ℤ) = l.get? n := by
  have h1 : ¬ ((n : ℤ) < 0) := not_lt.mpr (Int.natCast_nonneg n)
  simp [pyGet?, h1, Int.natCast_nonneg, Int.toNat_natCast]

theorem Except_map_ok {ε α β : Type} {f : α → β} {e : Except ε α} {b : β}
    (h : Except.map f e = Except.ok b) :
    ∃ a, e = Except.ok a ∧ b = f a := by
  cases e with
  | error _ => exact Except.noConfusion h
  | ok a => cases h; exact ⟨a, rfl, rfl⟩

theorem Except_bind_ok {ε α β : Type} {e : Except ε α} {f : α → Except ε β}
    {b : β} (h : e.bind f = Except.ok b) :
    ∃ a, e = Except.ok a ∧ f a = Except.ok b := by
  cases e with
  | error _ => exact Except.noConfusion h
  | ok a => exact ⟨a, rfl, h⟩

theorem get?_zipWith_some {α β γ : Type} {f : α → β → γ} {l1 : List α}
    {l2 : List β} {j : ℕ} {a : α} {b : β}
    (h1 : l1.get? j = some a) (h2 : l2.get? j = some b) :
    (List.zipWith f l1 l2).get? j = some (f a b) := by
  rw [List.get?_zipWith', h1, h2]; rfl

theorem debugStep_fields (sa : ScatterAnimation) (i : ℕ) (st : RenderState) :
    (debugStep sa i st).offsets = st.offsets ∧
    (debugStep sa i st).s = st.s ∧
    (debugStep sa i st).mangledSizes = st.mangledSizes ∧
    (debugStep sa i st).drawnLines = st.drawnLines ∧
    (debugStep sa i st).ax_texts = st.ax_texts ∧
    (debugStep sa i st).frame_text = st.frame_text := by
  unfold debugStep; split <;> exact ⟨rfl, rfl, rfl, rfl, rfl, rfl⟩

theorem drawLines_fields {sa : ScatterAnimation} {i : ℕ}
    {st st' : RenderState} (h : drawLines sa i st = Except.ok st') :
    st'.offsets = st.offsets ∧ st'.s = st.s ∧
    st'.mangledSizes = st.mangledSizes ∧ st'.frame_text = st.frame_text ∧
    st'.ax_texts = st.ax_texts ∧ st'.idx_counter = st.idx_counter := by
  unfold drawLines at h
  split at h
  · split at h
    · obtain ⟨nl, _, rfl⟩ := Except_map_ok h
      exact ⟨rfl, rfl, rfl, rfl, rfl, rfl⟩
    · cases h; exact ⟨rfl, rfl, rfl, rfl, rfl, rfl⟩
  · cases h; exact ⟨rfl, rfl, rfl, rfl, rfl, rfl⟩

theorem setFrameText_fields {sa : ScatterAnimation} {nextIdx : ℕ}
    {st st' : RenderState} (h : setFrameText sa nextIdx st = Except.ok st') :
    st'.offsets = st.offsets ∧ st'.s = st.s ∧
    st'.mangledSizes = st.mangledSizes ∧ st'.ax_texts = st.ax_texts ∧
    st'.drawnLines = st.drawnLines := by
  unfold setFrameText at h
  split at h
  · cases h; exact ⟨rfl, rfl, rfl, rfl, rfl⟩
  · obtain ⟨lab, _, rfl⟩ := Except_map_ok h
    exact ⟨rfl, rfl, rfl, rfl, rfl⟩

theorem moveTexts_fields {sa : ScatterAnimation} {offset : List (ℚ × ℚ)}
    {st st' : RenderState} (h : moveTexts sa offset st = Except.ok st') :
    st'.offsets = st.offsets ∧ st'.s = st.s ∧
    st'.mangledSizes = st.mangledSizes ∧ st'.frame_text = st.frame_text ∧
    st'.drawnLines = st.drawnLines := by
  unfold moveTexts at h
  split at h
  · cases h; exact ⟨rfl, rfl, rfl, rfl, rfl⟩
  · obtain ⟨ts, _, rfl⟩ := Except_map_ok h
    exact ⟨rfl, rfl, rfl, rfl, rfl⟩

theorem updateLabels_fields {sa : ScatterAnimation} {nextIdx : ℕ}
    {offset : List (ℚ × ℚ)} {st st' : RenderState}
    (h : updateLabels sa nextIdx offset st = Except.ok st') :
    st'.offsets = st.offsets ∧ st'.s = st.s ∧
    st'.mangledSizes = st.mangledSizes ∧ st'.drawnLines = st.drawnLines := by
  unfold updateLabels at h
  obtain ⟨st1, hs, hm⟩ := Except_bind_ok h
  obtain ⟨h1, h2, h3, _, h5⟩ := setFrameText_fields hs
  obtain ⟨g1, g2, g3, _, g5⟩ := moveTexts_fields hm
  exact ⟨g1.trans h1, g2.trans h2, g3.trans h3, g5.trans h5⟩

theorem update_ok_decomp {sa : ScatterAnimation} {i : ℕ}
    {st st' : RenderState} (h : update sa i st = Except.ok st') :
    sa.framedelta ≠ 0 ∧
    ∃ st1, drawLines sa i st = Except.ok st1 ∧
      updateCore sa i st1 = Except.ok st' := by
  unfold update at h
  by_cases hfd : sa.framedelta = 0
  · rw [if_pos hfd] at h; exact Except.noConfusion h
  · rw [if_neg hfd] at h
    obtain ⟨st1, h1, h2⟩ := Except_bind_ok h
    exact ⟨hfd, st1, h1, h2⟩

theorem updateCore_pause {sa : ScatterAnimation} {i : ℕ} {st : RenderState}
    (hp : i % sa.framedelta < sa.paused) :
    updateCore sa i st = Except.ok (debugStep sa i st) := by
  unfold updateCore; rw [if_pos hp]

theorem getE_some {α : Type} (msg : String) (a : α) :
    getE msg (some a) = Except.ok a := rfl

theorem updateCore_interp_offsets {sa : ScatterAnimation} {i : ℕ}
    {st st' : RenderState} {nextArr prevArr : List (ℚ × ℚ)}
    (hp : ¬ i % sa.framedelta < sa.paused)
    (hnext : pyGet? sa.position ((i / sa.framedelta : ℕ) : ℤ) = some nextArr)
    (hprev : pyGet? sa.position (((i / sa.framedelta : ℕ) : ℤ) - 1) = some prevArr)
    (h : updateCore sa i st = Except.ok st') :
    st'.offsets = interpOffset sa i nextArr prevArr := by
  unfold updateCore at h
  rw [if_neg hp, hnext, hprev, getE_some, getE_some] at h
  simp only [Except.bind] at h
  obtain ⟨szs, hsz, h⟩ := Except_bind_ok h
  obtain ⟨st2, hul, h⟩ := Except_bind_ok h
  obtain ⟨o1, -, -, -⟩ := updateLabels_fields hul
  cases h
  split
  · exact o1
  · exact o1

theorem updateCore_drawnLines {sa : ScatterAnimation} {i : ℕ}
    {st st' : RenderState} (h : updateCore sa i st = Except.ok st') :
    st'.drawnLines = st.drawnLines := by
  unfold updateCore at h
  split at h
  · cases h; exact (debugStep_fields sa i st).2.2.2.1
  · obtain ⟨nextArr, -, h⟩ := Except_bind_ok h
    obtain ⟨prevArr, -, h⟩ := Except_bind_ok h
    obtain ⟨szs, -, h⟩ := Except_bind_ok h
    obtain ⟨st2, hul, h⟩ := Except_bind_ok h
    obtain ⟨-, -, -, d4⟩ := updateLabels_fields hul
    cases h
    split
    · exact d4.trans (debugStep_fields sa i st).2.2.2.1
    · exact d4.trans (debugStep_fields sa i st).2.2.2.1

theorem update_pause_preserves {sa : ScatterAnimation} {i : ℕ}
    {st st' : RenderState} (hp : i % sa.framedelta < sa.paused)
    (h : update sa i st = Except.ok st') :
    st'.offsets = st.offsets ∧ st'.s = st.s ∧
    st'.mangledSizes = st.mangledSizes := by
  obtain ⟨-, st1, hdl, hc⟩ := update_ok_decomp h
  rw [updateCore_pause hp] at hc
  cases hc
  obtain ⟨f1, f2, f3, -, -, -⟩ := drawLines_fields hdl
  obtain ⟨g1, g2, g3, -, -, -⟩ := debugStep_fields sa i st1
  exact ⟨g1.trans f1, g2.trans f2, g3.trans f3⟩

theorem Except_seqBind_ok {ε α β : Type} {e : Except ε α}
    {f : α → Except ε β} {b : β} (h : e >>= f = Except.ok b) :
    ∃ a, e = Except.ok a ∧ f a = Except.ok b :=
  Except_bind_ok h

theorem Except_ok_seqBind {ε α β : Type} (a : α) (f : α → Except ε β) :
    (Except.ok a >>= f) = f a := rfl

theorem Except_error_seqBind {ε α β : Type} (e : ε) (f : α → Except ε β) :
    ((Except.error e : Except ε α) >>= f) = Except.error e := rfl

theorem runFrames_pause_chunk (sa : ScatterAnimation) (w : ℕ) :
    ∀ (n : ℕ) (st st' : RenderState), w % sa.framedelta = 0 →
      n < sa.paused →
      runFrames sa (List.range' w (n + 1)) st = Except.ok st' →
      st'.offsets = st.offsets ∧ st'.s = st.s ∧
      st'.mangledSizes = st.mangledSizes := by
  intro n
  induction n with
  | zero =>
    intro st st' hw hn hrun
    simp only [runFrames, List.range', List.foldlM_cons, List.foldlM_nil] at hrun
    obtain ⟨st1, hu, hone⟩ := Except_seqBind_ok hrun
    cases hone
    exact update_pause_preserves (by rw [hw]; exact hn) hu
  | succ n ih =>
    intro st st' hw hn hrun
    rw [List.range'_concat] at hrun
    unfold runFrames at hrun
    rw [List.foldlM_append] at hrun
    obtain ⟨stm, hm, hlast⟩ := Except_seqBind_ok hrun
    simp only [List.foldlM_cons, List.foldlM_nil] at hlast
    obtain ⟨st1, hu, hone⟩ := Except_seqBind_ok hlast
    cases hone
    have hp : (w + 1 * (n + 1)) % sa.framedelta < sa.paused := by
      obtain ⟨q, hq⟩ := Nat.dvd_of_mod_eq_zero hw
      have hfd : sa.framedelta = sa.paused + sa.animated := rfl
      have hlt : n + 1 < sa.framedelta := by
        rw [hfd]; exact lt_of_lt_of_le hn (Nat.le_add_right _ _)
      rw [one_mul, hq, Nat.mul_add_mod, Nat.mod_eq_of_lt hlt]
      exact hn
    obtain ⟨a1, a2, a3⟩ := update_pause_preserves hp hu
    obtain ⟨b1, b2, b3⟩ := ih st stm hw (Nat.lt_of_succ_lt hn) hm
    exact ⟨a1.trans b1, a2.trans b2, a3.trans b3⟩

theorem drawLines_drawnLines {sa : ScatterAnimation} {i : ℕ}
    {st st' : RenderState} {s0 : List ℚ} {p0 plast : List (ℚ × ℚ)}
    (hs0 : sizesGet sa 0 = Except.ok s0)
    (hp0 : pyGet? sa.position 0 = some p0)
    (hpl : pyGet? sa.position (-1) = some plast)
    (h : drawLines sa i st = Except.ok st') :
    st'.drawnLines = st.drawnLines ++
      (if sa.lines = true ∧ (i : ℤ) = (sa.numframes : ℤ) - 1 then
        (maskFilter (s0.map fun s => decide (s > sa.threshold)) p0).zip
          (maskFilter (s0.map fun s => decide (s > sa.threshold)) plast)
       else []) := by
  unfold drawLines at h
  split at h
  case isTrue hl =>
    split at h
    case isTrue hi =>
      obtain ⟨nl, hnl, rfl⟩ := Except_map_ok h
      unfold lineSegs at hnl
      rw [hs0] at hnl
      simp only [Except.bind] at hnl
      rw [hp0, getE_some] at hnl
      simp only [Except.bind] at hnl
      rw [hpl, getE_some] at hnl
      simp only [Except.bind] at hnl
      cases hnl
      rw [if_pos ⟨hl, hi⟩]
    case isFalse hi =>
      cases h
      rw [if_neg (fun hc => hi hc.2), List.append_nil]
  case isFalse hl =>
    cases h
    rw [if_neg (fun hc => hl hc.1), List.append_nil]

/-- C4: for every input the total animated-frame count `numframes` equals
`(pausedFrames + interpolatedFrames) * N` where `N` is the number of
snapshots, and the driver feeds `update` exactly the global frame
counters `i` with `framedelta ≤ i < numframes` — so the frames of
segment 0 (all `i < framedelta`, its motion window included) are never
updated. -/
theorem C4_total_frames_and_driven_range (sa : ScatterAnimation) :
    sa.numframes = (sa.paused + sa.animated) * sa.position.length ∧
    ∀ i : ℕ, i ∈ sa.animFrames ↔ sa.framedelta ≤ i ∧ i < sa.numframes := by
  refine ⟨rfl, fun i => ?_⟩
  unfold ScatterAnimation.animFrames
  rw [List.mem_range'_1]
  omega

/-- C3: during a pause frame `i` (`i % framedelta < paused`), running the
update step over every frame of the enclosing pause window — from the
window's start `(i / framedelta) * framedelta` through `i` itself —
leaves the displayed scatter's offsets and both size fields exactly as
they were at the start of the window: pause frames never reposition or
resize. -/
theorem C3_pause_window_static (sa : ScatterAnimation) (i : ℕ)
    (st st' : RenderState)
    (hpause : i % sa.framedelta < sa.paused)
    (hrun : runFrames sa
        (List.range' (i / sa.framedelta * sa.framedelta)
          (i % sa.framedelta + 1)) st = Except.ok st') :
    st'.offsets = st.offsets ∧ st'.s = st.s ∧
    st'.mangledSizes = st.mangledSizes :=
  runFrames_pause_chunk sa (i / sa.framedelta * sa.framedelta)
    (i % sa.framedelta) st st' (Nat.mul_mod_left _ _) hpause hrun

def saC3 : ScatterAnimation :=
  { position := [[(0, 0)], [(1, 1)]], sizes := some [[5], [5]],
    paused := 1, animated := 2 }

def stC3 : RenderState :=
  { offsets := [(0, 0)], s := [5], mangledSizes := none, frame_text := none,
    ax_texts := [], idx_counter := none, c := none, shadow := none,
    drawnLines := [] }

theorem C3_pause_window_static_witness :
    3 % saC3.framedelta < saC3.paused ∧
      stC3.offsets = stC3.offsets ∧ stC3.s = stC3.s ∧
      stC3.mangledSizes = stC3.mangledSizes :=
  ⟨by decide, C3_pause_window_static saC3 3 stC3 stC3 (by decide) (by rfl)⟩

/-- C1: on every interpolation frame `i` (`i % framedelta ≥ paused`,
with `t = i % framedelta - paused`), each point's displayed position is
`positions[prevIdx] + (positions[nextIdx] - positions[prevIdx]) * t /
interpolatedFrames` when both absolute coordinate deltas are `≤ 1/4`
(the source's literal `0.25`), and exactly `positions[nextIdx]` when
either absolute delta exceeds `1/4`. -/
theorem C1_interpolated_position (sa : ScatterAnimation) (i : ℕ)
    (st st' : RenderState) (nextArr prevArr : List (ℚ × ℚ))
    (j : ℕ) (p q : ℚ × ℚ)
    (hok : update sa i st = Except.ok st')
    (hframe : sa.paused ≤ i % sa.framedelta)
    (hnext : pyGet? sa.position ((i / sa.framedelta : ℕ) : ℤ) = some nextArr)
    (hprev : pyGet? sa.position (((i / sa.framedelta : ℕ) : ℤ) - 1) = some prevArr)
    (hq : nextArr.get? j = some q) (hp : prevArr.get? j = some p) :
    st'.offsets.get? j = some
      (if 1/4 < |q.1 - p.1| ∨ 1/4 < |q.2 - p.2| then q
       else (p.1 + (q.1 - p.1) * ((i % sa.framedelta - sa.paused : ℕ) : ℚ)
               / (sa.animated : ℚ),
             p.2 + (q.2 - p.2) * ((i % sa.framedelta - sa.paused : ℕ) : ℚ)
               / (sa.animated : ℚ))) := by
  obtain ⟨-, st1, hdl, hc⟩ := update_ok_decomp hok
  rw [updateCore_interp_offsets (not_lt.mpr hframe) hnext hprev hc]
  unfold interpOffset
  have hd : (offsetDelta nextArr prevArr).get? j
      = some (q.1 - p.1, q.2 - p.2) := get?_zipWith_some hq hp
  have hcand : (offsetCandidate prevArr (offsetDelta nextArr prevArr)
      (i % sa.framedelta - sa.paused) sa.animated).get? j
      = some (p.1 + (q.1 - p.1) * ((i % sa.framedelta - sa.paused : ℕ) : ℚ)
                / (sa.animated : ℚ),
              p.2 + (q.2 - p.2) * ((i % sa.framedelta - sa.paused : ℕ) : ℚ)
                / (sa.animated : ℚ)) := get?_zipWith_some hp hd
  have hmask : (snapMask (offsetDelta nextArr prevArr)).get? j
      = some (decide (1/4 < |q.1 - p.1|) || decide (1/4 < |q.2 - p.2|)) := by
    unfold snapMask
    rw [List.get?_map, hd]
    rfl
  have hassign := get?_zipWith_some (f := fun om n => if om.2 then n else om.1)
    (get?_zipWith_some (f := Prod.mk) hcand hmask) hq
  rw [snapAssign, List.zip_eq_zipWith, hassign]
  simp only [Bool.or_eq_true, decide_eq_true_eq]

def saC1 : ScatterAnimation :=
  { position := [[(0, 0)], [(1/10, 1/10)]], sizes := some [[5], [5]],
    paused := 1, animated := 2 }

def stC1 : RenderState :=
  { offsets := [(0, 0)], s := [5], mangledSizes := none, frame_text := none,
    ax_texts := [], idx_counter := none, c := none, shadow := none,
    drawnLines := [] }

def stC1' : RenderState :=
  { stC1 with offsets := [(1/20, 1/20)], mangledSizes := some [5] }

theorem C1_interpolated_position_witness :
    update saC1 5 stC1 = Except.ok stC1' ∧
      stC1'.offsets.get? 0 = some ((1:ℚ)/20, (1:ℚ)/20) := by
  constructor
  · norm_num [update, updateCore, drawLines, debugStep, updateLabels,
      setFrameText, moveTexts, interpOffset, offsetDelta, offsetCandidate,
      snapMask, snapAssign, sizesGet, getE, pyGet?, saC1, stC1, stC1',
      Except.bind, abs_of_nonneg, ScatterAnimation.framedelta,
      ScatterAnimation.numframes]
  · have h := C1_interpolated_position saC1 5 stC1 stC1'
      [((1:ℚ)/10, (1:ℚ)/10)] [((0:ℚ), (0:ℚ))] 0 ((0:ℚ), (0:ℚ))
      ((1:ℚ)/10, (1:ℚ)/10)
      (by norm_num [update, updateCore, drawLines, debugStep, updateLabels,
        setFrameText, moveTexts, interpOffset, offsetDelta, offsetCandidate,
        snapMask, snapAssign, sizesGet, getE, pyGet?, saC1, stC1, stC1',
        Except.bind, abs_of_nonneg, ScatterAnimation.framedelta,
        ScatterAnimation.numframes])
      (by decide) (by rfl) (by rfl) (by rfl) (by rfl)
    rw [h]
    norm_num [saC1, ScatterAnimation.framedelta, abs_of_nonneg]

/-- C5: whenever the update step succeeds, the connecting first-to-last
segments are appended exactly when line drawing is enabled and `i` is
the last global frame (`i == numframes - 1`) — and then they consist of
exactly the points whose frame-0 size strictly exceeds the threshold,
each joined from its frame-0 position to its final-frame position; at
every other frame no line is drawn. -/
theorem C5_lines_only_last_frame (sa : ScatterAnimation) (i : ℕ)
    (st st' : RenderState) (s0 : List ℚ) (p0 plast : List (ℚ × ℚ))
    (hok : update sa i st = Except.ok st')
    (hs0 : sizesGet sa 0 = Except.ok s0)
    (hp0 : pyGet? sa.position 0 = some p0)
    (hpl : pyGet? sa.position (-1) = some plast) :
    st'.drawnLines = st.drawnLines ++
      (if sa.lines = true ∧ (i : ℤ) = (sa.numframes : ℤ) - 1 then
        (maskFilter (s0.map fun s => decide (s > sa.threshold)) p0).zip
          (maskFilter (s0.map fun s => decide (s > sa.threshold)) plast)
       else []) := by
  obtain ⟨-, st1, hdl, hc⟩ := update_ok_decomp hok
  rw [updateCore_drawnLines hc]
  exact drawLines_drawnLines hs0 hp0 hpl hdl

def saC5 : ScatterAnimation :=
  { position := [[(0, 0)], [(1, 1)]], sizes := some [[10], [10]],
    paused := 1, animated := 2, lines := true }

def stC5 : RenderState :=
  { offsets := [(0, 0)], s := [10], mangledSizes := none, frame_text := none,
    ax_texts := [], idx_counter := none, c := none, shadow := none,
    drawnLines := [] }

def stC5' : RenderState :=
  { stC5 with
      offsets := [(1, 1)]
      mangledSizes := some [10]
      drawnLines := [((0, 0), (1, 1))] }

theorem C5_lines_only_last_frame_witness :
    update saC5 5 stC5 = Except.ok stC5' ∧
      stC5'.drawnLines = [(((0:ℚ), (0:ℚ)), ((1:ℚ), (1:ℚ)))] := by
  constructor
  · norm_num [update, updateCore, drawLines, debugStep, updateLabels,
      setFrameText, moveTexts, interpOffset, offsetDelta, offsetCandidate,
      snapMask, snapAssign, sizesGet, getE, pyGet?, lineSegs, maskFilter,
      List.filterMap_cons, List.filterMap_nil, List.zip_cons_cons,
      saC5, stC5, stC5', Except.bind, Except.map, abs_of_nonneg,
      ScatterAnimation.framedelta, ScatterAnimation.numframes]
  · have h := C5_lines_only_last_frame saC5 5 stC5 stC5' [10]
      [((0:ℚ), (0:ℚ))] [((1:ℚ), (1:ℚ))]
      (by norm_num [update, updateCore, drawLines, debugStep, updateLabels,
        setFrameText, moveTexts, interpOffset, offsetDelta, offsetCandidate,
        snapMask, snapAssign, sizesGet, getE, pyGet?, lineSegs, maskFilter,
      List.filterMap_cons, List.filterMap_nil, List.zip_cons_cons,
        saC5, stC5, stC5', Except.bind, Except.map, abs_of_nonneg,
        ScatterAnimation.framedelta, ScatterAnimation.numframes])
      (by rfl) (by rfl) (by rfl)
    rw [h]
    norm_num [saC5, maskFilter, ScatterAnimation.numframes,
      ScatterAnimation.framedelta, stC5, List.filterMap_cons,
      List.filterMap_nil, List.zip_cons_cons]

def saC2 : ScatterAnimation :=
  { position := [[(0, 0)], [(1, 1)]], sizes := some [[5], [9]],
    paused := 1, animated := 2 }

/-- C2 (code bug witness): over the full driven pass of the two-snapshot
animation `saC2` (per-point sizes `[5]` then `[9]`), the update step
stores `sizes[nextIdx] = [9]` only into the name-mangled attribute
`_ScatterAnimation__sizes` (field `mangledSizes`), while the size array
the rendering backend actually reads (field `s`, set once from
`sizes[0]` by the `s=` keyword at line 117) still holds `[5] ≠ [9]`:
the displayed sizes never snap to the next keyframe's value. -/
theorem C2_sizes_never_reach_display :
    ((initScat saC2).bind (runFrames saC2 saC2.animFrames)).toOption.map
        (fun st => (st.s, st.mangledSizes)) = some ([5], some [9]) ∧
      ([5] : List ℚ) ≠ [9] := by
  constructor
  · norm_num [initScat, initFrameText, initAxTexts, initColor, runFrames,
      update, updateCore, drawLines, debugStep, updateLabels, setFrameText,
      moveTexts, interpOffset, offsetDelta, offsetCandidate, snapMask,
      snapAssign, sizesGet, getE, pyGet?, saC2, Except.bind, Except.map,
      abs_of_nonneg, ScatterAnimation.framedelta, ScatterAnimation.numframes,
      ScatterAnimation.animFrames, List.range', List.foldlM_cons,
      List.foldlM_nil, Except.toOption, Except_ok_seqBind,
      Except_error_seqBind]
  · decide

def saC6 : ScatterAnimation :=
  { position := [[(0, 0)], [(1, 1)]], sizes := some [[5], [5]],
    frame_labels := some ["A", "B"], text_labels := some ["p"] }

/-- C6 (code bug witness): with frame labels `["A", "B"]` and text
labels `["p"]` supplied, initialization creates the caption text object
from `self.text_labels[0] = "p"` (line 89) instead of the snapshot-0
frame label `"A"`: the caption rendered at the anchor is not the
frame-label caption for snapshot 0. -/
theorem C6_init_caption_uses_text_labels :
    (initScat saC6).toOption.map RenderState.frame_text = some (some "p") ∧
      saC6.frame_labels = some ["A", "B"] ∧ ("p" : String) ≠ "A" :=
  ⟨rfl, rfl, by decide⟩

def saC7 : ScatterAnimation :=
  { position := [[(0, 0), (1, 0)]], sizes := some [[10, 3]],
    shadows := true, threshold := 5 }

/-- C7 counterexample: with `sizeThreshold = 5` and frame-0 sizes
`[10, 3]`, the shadow scatter drawn at initialization contains the
second point, size `3`, even though `3 ≤ 5`: the claim that points at
or below the threshold are excluded from the shadow is false — the
shadow call (line 121) applies no threshold filter. -/
theorem C7_counterexample :
    (initScat saC7).toOption.map RenderState.shadow
        = some (some [((0, 0), 10), ((1, 0), 3)]) ∧
      ¬ ((3 : ℚ) > saC7.threshold) :=
  ⟨rfl, by decide⟩

/-- C7 amended: when shadows are enabled, the one-time shadow scatter
drawn at initialization contains every frame-0 point paired with its
frame-0 size — `sizeThreshold` does not filter the shadow (in this
module the threshold only gates text labels and the connecting lines). -/
theorem C7_shadow_includes_all_points (sa : ScatterAnimation)
    (st : RenderState) (p0 : List (ℚ × ℚ)) (s0 : List ℚ)
    (hok : initScat sa = Except.ok st) (hsh : sa.shadows = true)
    (hp : pyGet? sa.position 0 = some p0)
    (hs : sizesGet sa 0 = Except.ok s0) :
    st.shadow = some (p0.zip s0) := by
  unfold initScat at hok
  obtain ⟨ft, -, hok⟩ := Except_bind_ok hok
  obtain ⟨axts, -, hok⟩ := Except_bind_ok hok
  obtain ⟨c, -, hok⟩ := Except_bind_ok hok
  obtain ⟨pos0, hpos, hok⟩ := Except_bind_ok hok
  obtain ⟨s0', hs0, hok⟩ := Except_bind_ok hok
  rw [hp, getE_some] at hpos
  cases hpos
  rw [hs] at hs0
  cases hs0
  cases hok
  simp [hsh]

def stC7 : RenderState :=
  { offsets := [(0, 0), (1, 0)], s := [10, 3], mangledSizes := none,
    frame_text := none, ax_texts := [], idx_counter := none, c := none,
    shadow := some [((0, 0), 10), ((1, 0), 3)], drawnLines := [] }

theorem C7_shadow_includes_all_points_witness :
    stC7.shadow = some
      ([((0:ℚ), (0:ℚ)), ((1:ℚ), (0:ℚ))].zip [(10:ℚ), 3]) :=
  C7_shadow_includes_all_points saC7 stC7
    [((0:ℚ), (0:ℚ)), ((1:ℚ), (0:ℚ))] [(10:ℚ), 3] rfl rfl rfl rfl

def saC8 : ScatterAnimation := { position := [[(0, 0)], [(1, 1)]] }

def stC8 : RenderState :=
  { offsets := [(0, 0)], s := [], mangledSizes := none, frame_text := none,
    ax_texts := [], idx_counter := none, c := none, shadow := none,
    drawnLines := [] }

/-- C8 (code bug witness): with `sizes` absent (`None`) and text labels,
lines and thresholding all out of play, initialization still evaluates
`self.sizes[0]` in the `plt.scatter` call (line 117) and the update step
still evaluates `self.sizes[next_idx]` (line 157) before its
`if self.sizes is not None` guard (line 168): both raise `TypeError`
instead of succeeding, so the absent sizes container is read after
all. -/
theorem C8_absent_sizes_still_read :
    initScat saC8
        = Except.error "TypeError: NoneType object is not subscriptable" ∧
      update saC8 16 stC8
        = Except.error "TypeError: NoneType object is not subscriptable" :=
  ⟨rfl, rfl⟩

/-- C10: whenever color mode is enabled but no text labels were
supplied, initialization fails (`len(None)` at line 112 — the per-point
color index array is built from the length of the text-label sequence,
not from the point count), so the init step never returns a rendered
state. -/
theorem C10_colors_without_text_labels_errors (sa : ScatterAnimation)
    (hc : sa.colors = true) (ht : sa.text_labels = none) :
    (initScat sa).toOption = none := by
  cases hfl : sa.frame_labels with
  | none =>
    unfold initScat initFrameText initAxTexts initColor
    rw [hfl, ht, hc]
    rfl
  | some fl =>
    unfold initScat initFrameText
    rw [hfl, ht]
    rfl

def saC10 : ScatterAnimation :=
  { position := [[(0, 0)]], sizes := some [[1]], colors := true }

theorem C10_colors_without_text_labels_errors_witness :
    (initScat saC10).toOption = none :=
  C10_colors_without_text_labels_errors saC10 rfl rfl

/-- Explicit-heap model of numpy array object identity for the offset
computation of `update` (lines 151-158).  Arrays live in a store;
`position` is a list of references to caller-owned arrays.  Each numpy
binary operation in the source allocates a fresh result array
(lines 151 and 152); the only in-place array write in the whole module
is the boolean-mask assignment of line 155,
`offset[offset_idx] = position[next_idx][offset_idx]`, which targets the
array allocated for `offset` on line 152 — never a caller array.  Every
other statement (`set_offsets`, `set_text`, `set_position`, the
`__sizes` attribute write) only reads these arrays or copies values into
rendering objects. -/
structure Heap where
  arrays : List (List (ℚ × ℚ))
deriving DecidableEq

def Heap.read (h : Heap) (r : ℕ) : List (ℚ × ℚ) :=
  (h.arrays.get? r).getD []

def Heap.alloc (h : Heap) (v : List (ℚ × ℚ)) : Heap × ℕ :=
  (⟨h.arrays ++ [v]⟩, h.arrays.length)

def Heap.write (h : Heap) (r : ℕ) (v : List (ℚ × ℚ)) : Heap :=
  ⟨h.arrays.set r v⟩

/-- Lines 151-155 of `update` over the explicit heap: read the two
snapshot arrays through their references, allocate `offset_delta`
(line 151), allocate `offset` (line 152), then perform line 155's
masked assignment in place on the `offset` array.  Returns the new heap
and the reference of `offset`. -/
def updateOffsetsHeap (h : Heap) (posRefs : List ℕ) (nextIdx t k : ℕ) :
    Heap × ℕ :=
  let nextArr := h.read (posRefs.getD nextIdx 0)
  let prevArr := h.read (posRefs.getD (nextIdx - 1) 0)
  let ad := h.alloc (offsetDelta nextArr prevArr)
  let ao := ad.1.alloc (offsetCandidate prevArr (ad.1.read ad.2) t k)
  (ao.1.write ao.2
    (snapAssign (ao.1.read ao.2) (snapMask (ao.1.read ad.2)) nextArr),
   ao.2)

theorem Heap_read_write_ne (h : Heap) (r r' : ℕ) (v : List (ℚ × ℚ))
    (hne : r ≠ r') : (h.write r v).read r' = h.read r' := by
  unfold Heap.write Heap.read
  rw [List.get?_set_ne _ _ hne]

theorem Heap_read_alloc_lt (h : Heap) (v : List (ℚ × ℚ)) (r : ℕ)
    (hr : r < h.arrays.length) : (h.alloc v).1.read r = h.read r := by
  unfold Heap.alloc Heap.read
  simp only
  rw [List.get?_append hr]

/-- C9: caller-supplied containers are never mutated.  In the
explicit-heap model of the update step's array operations, every array
reference that existed before the step — in particular every `position`
snapshot — still maps to its identical contents afterwards: the sole
in-place write of the module (line 155) lands on the freshly allocated
`offset` array, whose reference lies beyond all pre-existing ones. -/
theorem C9_inputs_never_mutated (h : Heap) (posRefs : List ℕ)
    (nextIdx t k r : ℕ) (hr : r < h.arrays.length) :
    ((updateOffsetsHeap h posRefs nextIdx t k).1).read r = h.read r := by
  simp only [updateOffsetsHeap]
  rw [Heap_read_write_ne _ _ _ _ (by simp [Heap.alloc]; omega)]
  rw [Heap_read_alloc_lt _ _ _ (by simp [Heap.alloc]; omega)]
  exact Heap_read_alloc_lt _ _ _ hr

def heapC9 : Heap := ⟨[[(0, 0)], [(1, 1)]]⟩

theorem C9_inputs_never_mutated_witness :
    0 < heapC9.arrays.length ∧
      ((updateOffsetsHeap heapC9 [0, 1] 1 0 2).1).read 0 = heapC9.read 0 :=
  ⟨by decide, C9_inputs_never_mutated heapC9 [0, 1] 1 0 2 0 (by decide)⟩

end ScatterAnimate
